import Mathlib

/-!
# Verification of the mailgun-validate-email client

A shallow embedding of the ESM implementation of the email-validation
client (`createValidator` / `validator` / `validateEmail`).  The client
issues one authenticated GET request per call, arms a 4000 ms abort timer,
and classifies the outcome into a success object or an error carrying a
`code` from {EAUTH, EAPI, ETIMEDOUT, EUNKNOWN}.

The network is modelled by a `FetchOutcome` parameter describing what the
single `fetch` call does: it times out (the abort timer fires first), it
fails at the transport level with a JS error, or it yields an HTTP
response with a status and a body.  Response bodies are modelled by the
result of `response.json()`: either a parsed JSON object (an association
list of fields) or a parse failure carrying the raw body text and the
parse error thrown by the JSON machinery.  JavaScript errors are records
with `name`, `message`, an optional `code` and an optional `status`
property, matching the properties the source reads and writes.
-/

namespace MailgunValidate

/-- A JSON value, as far as the client inspects response bodies. -/
inductive JsonVal where
  | str (s : String)
  | num (n : Int)
  | bool (b : Bool)
  | null
  | arr (elems : List JsonVal)
deriving Repr

/-- A parsed JSON object: an ordered list of named fields. -/
abbrev JsObj := List (String × JsonVal)

/-- Property lookup `o.k`: the first field named `k`, if any
(JavaScript objects have at most one field per key; the first match
models that). -/
def getField : JsObj → String → Option JsonVal
  | [], _ => none
  | (k', v') :: rest, k => if k' = k then some v' else getField rest k

/-- Property assignment `o.k = v`: overwrite the existing field in place,
or append a new one. -/
def setField : JsObj → String → JsonVal → JsObj
  | [], k, v => [(k, v)]
  | (k', v') :: rest, k, v =>
      if k' = k then (k, v) :: rest else (k', v') :: setField rest k v

/-- JavaScript truthiness of a JSON value (`""`, `0`, `false`, `null` are
falsy; arrays are always truthy). -/
def jsTruthy : JsonVal → Bool
  | .str s => s ≠ ""
  | .num n => n ≠ 0
  | .bool b => b
  | .null => false
  | .arr _ => true

mutual

/-- JavaScript string coercion of a JSON value, as `new Error(v)` would
apply to a non-string `message` field (arrays join their elements with
commas). -/
def jsToString : JsonVal → String
  | .str s => s
  | .num n => toString n
  | .bool b => if b then "true" else "false"
  | .null => "null"
  | .arr l => String.intercalate "," (jsToStringList l)

/-- String coercions of a list of JSON values. -/
def jsToStringList : List JsonVal → List String
  | [] => []
  | v :: rest => jsToString v :: jsToStringList rest

end

/-- A JavaScript error as the client reads and writes it: the built-in
`name` and `message` properties plus the optional `code` and `status`
properties the client attaches.  `code = none` models an absent
property (`error.code === undefined`). -/
structure JsError where
  name : String
  message : String
  code : Option String
  status : Option Nat
deriving Repr, DecidableEq

/-- The result of `await response.json()` on a response body: a parsed
JSON object, or a rejection carrying the raw body text together with the
name and message of the parse error thrown by the JSON machinery.  The
raw text is part of the model of the wire, not something the client
reads: the source never requests `response.text()`. -/
inductive BodyParse where
  | ok (fields : JsObj)
  | fail (raw : String) (errName errMsg : String)
deriving Repr

/-- What the single `fetch` call of one invocation does.
`timeout` means the 4000 ms timer fired first: `controller.abort()` makes
`fetch` reject with an `AbortError`.  `netErr` is a transport-level
rejection (DNS failure, connection refused, thrown fetch) carrying the
underlying error's name, message and optional pre-attached code.
`resp` is an HTTP response with its status and body. -/
inductive FetchOutcome where
  | timeout
  | netErr (name message : String) (code : Option String)
  | resp (status : Nat) (body : BodyParse)
deriving Repr

/-- Models `response.ok` per the fetch specification: status in 200..299. -/
def responseOk (status : Nat) : Bool :=
  200 ≤ status && status ≤ 299

/-- The base64 alphabet. -/
def base64Alphabet : List Char :=
  "ABCDEFGHIJKLMNOPQRSTUVWXYZabcdefghijklmnopqrstuvwxyz0123456789+/".toList

/-- The base64 digit for a 6-bit value. -/
def b64Digit (n : Nat) : Char := base64Alphabet.getD n '='

/-- Standard base64 encoding of a byte sequence, with padding, as
`Buffer.from(s).toString('base64')` produces. -/
def base64Encode : List Nat → String
  | [] => ""
  | [a] =>
      String.mk [b64Digit (a / 4), b64Digit (a % 4 * 16)] ++ "=="
  | [a, b] =>
      String.mk [b64Digit (a / 4), b64Digit (a % 4 * 16 + b / 16),
        b64Digit (b % 16 * 4)] ++ "="
  | a :: b :: c :: rest =>
      String.mk [b64Digit (a / 4), b64Digit (a % 4 * 16 + b / 16),
        b64Digit (b % 16 * 4 + c / 64), b64Digit (c % 64)] ++
        base64Encode rest

/-- The UTF-8 bytes of a string, as natural numbers. -/
def utf8Bytes (s : String) : List Nat :=
  s.toUTF8.toList.map (fun b => b.toNat)

/-- The constant `API_BASE_URL = 'https://api.mailgun.net/v3/address/validate'`. -/
def API_BASE_URL : String := "https://api.mailgun.net/v3/address/validate"

/-- The constant `TIMEOUT_MS = 4000`. -/
def TIMEOUT_MS : Nat := 4000

/-- The options object the README and the test suite pass as a second
argument to `createValidator`. -/
structure Options where
  timeout : Option Nat
  providerLookup : Option Bool
deriving Repr, DecidableEq

/-- The state a `createValidator` call closes over: the precomputed
Basic-auth header, and the timer duration the validator arms
(in the source this is the module constant `TIMEOUT_MS`; no field of
the closure depends on anything but `apiKey`). -/
structure Client where
  authHeader : String
  timeoutMs : Nat
deriving Repr, DecidableEq

/-- Models `createValidator(apiKey)`: builds the Basic-auth credential once.
The source function declares only the `apiKey` parameter; a second
argument, as JavaScript semantics has it, is accepted and ignored, which
the unused `options` parameter makes explicit. -/
def createValidator (apiKey : String) (_options : Option Options) : Client :=
  { authHeader := "Basic " ++ base64Encode (utf8Bytes ("api:" ++ apiKey)),
    timeoutMs := TIMEOUT_MS }

/-- The outbound HTTP request `validateEmail` constructs: method, base
URL, query string and headers. -/
structure Request where
  method : String
  url : String
  qs : List (String × String)
  headers : List (String × String)
deriving Repr, DecidableEq

/-- The request built at the top of `validateEmail`:
`GET API_BASE_URL?address=<email>` with the Authorization and Accept
headers. -/
def buildRequest (client : Client) (email : String) : Request :=
  { method := "GET",
    url := API_BASE_URL,
    qs := [("address", email)],
    headers := [("Authorization", client.authHeader),
                ("Accept", "application/json")] }

/-- The `catch` block of `validateEmail` (source lines 259-271): an
`AbortError` becomes a fresh `ETIMEDOUT` error with message
"Request timed out" and no status; any other error gets code `EUNKNOWN`
attached when its `code` property is falsy (absent or the empty string),
and is rethrown unchanged otherwise. -/
def catchClassify (e : JsError) : JsError :=
  if e.name = "AbortError" then
    { name := "Error", message := "Request timed out",
      code := some "ETIMEDOUT", status := none }
  else if e.code = none ∨ e.code = some "" then
    { e with code := some "EUNKNOWN" }
  else
    e

/-- The non-2xx branch (source lines 238-250): start from the generic
message, replace it with the error body's `message` field when the body
parses as JSON and the field is truthy (`errorData.message ||
errorMessage`), and build an error carrying the HTTP status and code
`EAUTH` for 401, `EAPI` otherwise. -/
def httpError (status : Nat) (body : BodyParse) : JsError :=
  let generic := "HTTP error! status: " ++ toString status
  let message :=
    match body with
    | .fail _ _ _ => generic
    | .ok fields =>
        match getField fields "message" with
        | some v => if jsTruthy v then jsToString v else generic
        | none => generic
  { name := "Error", message := message,
    status := some status,
    code := some (if status = 401 then "EAUTH" else "EAPI") }

/-- Models `result.result === 'deliverable'`: strict equality, true exactly when
the `result` field is the string "deliverable" (false when the field is
absent or of another type). -/
def resultIsDeliverable (fields : JsObj) : Bool :=
  match getField fields "result" with
  | some (.str s) => s = "deliverable"
  | _ => false

/-- One complete run of `validateEmail`: the request it issued, the
settled outcome of the returned promise, whether `clearTimeout` ran on
the completion path, and everything written to the console (the ESM
source contains no logging). -/
structure EmailRun where
  request : Request
  outcome : Except JsError JsObj
  timerCleared : Bool
  logs : List String
deriving Repr

/-- The `AbortError` that `fetch` rejects with after `controller.abort()`
(its message is the runtime's; the client only reads its `name`). -/
def abortError : JsError :=
  { name := "AbortError", message := "This operation was aborted",
    code := none, status := none }

/-- Models `validateEmail(email)` under a given fetch behaviour.

* `timeout`: the timer fires, `fetch` rejects with an `AbortError`, the
  catch block runs `clearTimeout` and classifies it as `ETIMEDOUT`.
* `netErr`: `fetch` rejects with the transport error; the catch block
  runs `clearTimeout` and classifies it.
* `resp`: `fetch` resolves and `clearTimeout` runs (line 236).  A non-ok
  status builds the classified HTTP error and throws it into the catch
  block (which leaves it unchanged: its name is "Error" and its code is
  already set).  An ok status parses the body: on success the client
  overwrites `is_valid` with `result === 'deliverable'` and resolves; a
  parse failure throws the parse error into the catch block, which gives
  it code `EUNKNOWN`. -/
def validateEmail (client : Client) (email : String)
    (fb : FetchOutcome) : EmailRun :=
  let req := buildRequest client email
  match fb with
  | .timeout =>
      { request := req, timerCleared := true, logs := [],
        outcome := .error (catchClassify abortError) }
  | .netErr name message code =>
      { request := req, timerCleared := true, logs := [],
        outcome := .error (catchClassify
          { name := name, message := message, code := code, status := none }) }
  | .resp status body =>
      if responseOk status then
        match body with
        | .ok fields =>
            { request := req, timerCleared := true, logs := [],
              outcome := .ok (setField fields "is_valid"
                (.bool (resultIsDeliverable fields))) }
        | .fail _ errName errMsg =>
            { request := req, timerCleared := true, logs := [],
              outcome := .error (catchClassify
                { name := errName, message := errMsg,
                  code := none, status := none }) }
      else
        { request := req, timerCleared := true, logs := [],
          outcome := .error (catchClassify (httpError status body)) }

/-- What a supplied callback does when invoked: return normally, or
throw a given error. -/
inductive CbBehavior where
  | returns
  | throws (e : JsError)
deriving Repr

/-- The second argument of `validator`, as a JavaScript value: absent,
a function (with its behaviour), or a non-function value. -/
inductive JsArg where
  | undef
  | func (b : CbBehavior)
  | str (s : String)
  | num (n : Int)
  | obj
deriving Repr

/-- What `validator` hands back: the promise (when no function was
supplied), or — for the callback convention — the list of invocations
of the callback, each with its `(error, result)` arguments, together
with any rejection left unhandled at the end of the chain. -/
inductive ValidatorResult where
  | promise (outcome : Except JsError JsObj)
  | cbRun (calls : List (Option JsError × Option JsObj))
      (unhandled : Option JsError)
deriving Repr

/-- The callback chain
`validateEmail(email).then(result => callback(null, result)).catch(callback)`:

* resolution with `r` invokes the callback as `callback(null, r)`; if the
  callback throws, the `.catch(callback)` handler invokes it a second
  time with the thrown error, and a further throw is an unhandled
  rejection;
* rejection with `err` skips the `.then` handler and invokes
  `callback(err)` once; a throw there is an unhandled rejection. -/
def runWithCallback (outcome : Except JsError JsObj)
    (b : CbBehavior) : ValidatorResult :=
  match outcome with
  | .ok r =>
      match b with
      | .returns => .cbRun [(none, some r)] none
      | .throws e => .cbRun [(none, some r), (some e, none)] (some e)
  | .error err =>
      match b with
      | .returns => .cbRun [(some err, none)] none
      | .throws e => .cbRun [(some err, none)] (some e)

/-- Models `validator(email, callback)`: when the second argument is not a
function (`typeof callback !== 'function'`), return the promise from
`validateEmail`; otherwise drive the callback chain. -/
def validator (client : Client) (email : String) (fb : FetchOutcome)
    (arg : JsArg) : ValidatorResult :=
  match arg with
  | .func b => runWithCallback (validateEmail client email fb).outcome b
  | _ => .promise (validateEmail client email fb).outcome

/-- One string occurs somewhere inside another (used to state that an
error's text references — or fails to reference — a response body). -/
def occursIn (needle hay : String) : Prop :=
  needle.toList <:+: hay.toList

instance (needle hay : String) : Decidable (occursIn needle hay) :=
  List.decidableInfix needle.toList hay.toList

/-- Looking up the field just assigned yields the assigned value,
whatever the object previously held at that key. -/
theorem getField_setField (o : JsObj) (k : String) (v : JsonVal) :
    getField (setField o k v) k = some v := by
  induction o with
  | nil => simp [setField, getField]
  | cons hd tl ih =>
      obtain ⟨k', v'⟩ := hd
      by_cases h : k' = k
      · simp [setField, getField, h]
      · simp [setField, getField, h, ih]

/-- C1: on every 2xx response whose body parses as a JSON object, the
resolved result carries `is_valid = (result === 'deliverable')`,
overwriting any `is_valid` the remote body already contained, and
`is_valid` is `true` exactly when the `result` field is the string
"deliverable". -/
theorem is_valid_recomputed (c : Client) (e : String) (status : Nat)
    (fields : JsObj) (hok : responseOk status = true) :
    ∃ r, (validateEmail c e (.resp status (.ok fields))).outcome = .ok r ∧
      getField r "is_valid" = some (.bool (resultIsDeliverable fields)) ∧
      (resultIsDeliverable fields = true ↔
        getField fields "result" = some (.str "deliverable")) := by
  refine ⟨setField fields "is_valid" (.bool (resultIsDeliverable fields)),
    ?_, getField_setField .., ?_⟩
  · simp [validateEmail, hok]
  · unfold resultIsDeliverable
    cases hg : getField fields "result" with
    | none => simp
    | some v => cases v <;> simp

/-- C1 witness: a body that already carries `is_valid: false` but
`result: "deliverable"` resolves with `is_valid` recomputed to `true`. -/
theorem is_valid_recomputed_witness :
    ∃ r, (validateEmail (createValidator "key" none) "a@b.com"
        (.resp 200 (.ok [("is_valid", .bool false),
          ("result", .str "deliverable")]))).outcome = .ok r ∧
      getField r "is_valid" = some (.bool (resultIsDeliverable
        [("is_valid", .bool false), ("result", .str "deliverable")])) ∧
      (resultIsDeliverable
          [("is_valid", .bool false), ("result", .str "deliverable")] = true ↔
        getField [("is_valid", .bool false), ("result", .str "deliverable")]
          "result" = some (.str "deliverable")) :=
  is_valid_recomputed (createValidator "key" none) "a@b.com" 200
    [("is_valid", .bool false), ("result", .str "deliverable")] (by decide)

/-- C4: when the fetch is aborted by the timer, the operation fails with
a fresh error of code `ETIMEDOUT`, message "Request timed out" and no
HTTP status; and `clearTimeout` runs on every completion path. -/
theorem timeout_classification (c : Client) (e : String) :
    (validateEmail c e .timeout).outcome =
      .error { name := "Error", message := "Request timed out",
               code := some "ETIMEDOUT", status := none } ∧
    (∀ fb, (validateEmail c e fb).timerCleared = true) := by
  constructor
  · rfl
  · intro fb
    cases fb with
    | timeout => rfl
    | netErr n m cd => rfl
    | resp s b =>
        unfold validateEmail
        cases b <;> by_cases h : responseOk s <;> simp [h]

/-- C10: a non-function second argument (string, number, object, or
absent) makes `validator` return the promise, identically to the
no-callback call, and it is never invoked as a callback. -/
theorem nonfunction_callback_ignored (c : Client) (e : String)
    (fb : FetchOutcome) (s : String) (n : Int) :
    validator c e fb (.str s) = .promise (validateEmail c e fb).outcome ∧
    validator c e fb (.num n) = .promise (validateEmail c e fb).outcome ∧
    validator c e fb .obj = .promise (validateEmail c e fb).outcome ∧
    validator c e fb (.str s) = validator c e fb .undef ∧
    validator c e fb (.num n) = validator c e fb .undef ∧
    validator c e fb .obj = validator c e fb .undef :=
  ⟨rfl, rfl, rfl, rfl, rfl, rfl⟩

/-- C7: a 403 response — the other status the test suite accepts for an
invalid API key — is classified `EAPI`, not `EAUTH`: only 401 maps to
`EAUTH` in the source. -/
theorem status_403_yields_EAPI :
    (validateEmail (createValidator "invalid-api-key" none)
      "test@example.com"
      (.resp 403 (.ok [("message", .str "Forbidden")]))).outcome =
    .error { name := "Error", message := "Forbidden",
             code := some "EAPI", status := some 403 } := by
  rfl

/-- C8: the options argument of `createValidator` is ignored entirely —
two clients built from the same key and different options are equal —
and the armed timer duration is the constant 4000 ms even when an
explicit `timeout: 1` option is passed. -/
theorem options_argument_ignored :
    (∀ k o₁ o₂, createValidator k o₁ = createValidator k o₂) ∧
    (createValidator "key"
      (some { timeout := some 1, providerLookup := some true })).timeoutMs =
        TIMEOUT_MS ∧
    TIMEOUT_MS = 4000 :=
  ⟨fun _ _ _ => rfl, rfl, rfl⟩

/-- C2: both calling conventions are driven by the same single
`validateEmail` run — the promise convention returns exactly its
outcome, and a well-behaved callback receives `(null, r)` exactly when
the promise would resolve with `r` and `(err)` exactly when it would
reject with `err`. -/
theorem conventions_agree (c : Client) (e : String) (fb : FetchOutcome) :
    validator c e fb .undef = .promise (validateEmail c e fb).outcome ∧
    (∀ r, (validateEmail c e fb).outcome = .ok r →
      validator c e fb (.func .returns) = .cbRun [(none, some r)] none) ∧
    (∀ err, (validateEmail c e fb).outcome = .error err →
      validator c e fb (.func .returns) = .cbRun [(some err, none)] none) := by
  refine ⟨rfl, ?_, ?_⟩ <;> intro x hx <;>
    simp [validator, runWithCallback, hx]

/-- C2 witness: on a timed-out fetch the callback convention delivers
exactly the error the promise convention rejects with. -/
theorem conventions_agree_witness :
    validator (createValidator "key" none) "a@b.com" .timeout
      (.func .returns) =
    .cbRun [(some { name := "Error", message := "Request timed out",
                    code := some "ETIMEDOUT", status := none }, none)] none :=
  (conventions_agree (createValidator "key" none) "a@b.com" .timeout).2.2
    { name := "Error", message := "Request timed out",
      code := some "ETIMEDOUT", status := none } rfl

/-- C5: a transport-level rejection that is not an abort is rethrown
with its name and message intact; it gets code `EUNKNOWN` when it
carried none, and keeps its own (non-empty) code otherwise. -/
theorem transport_failure_classification (c : Client) (e name msg : String)
    (cd : Option String) (hname : name ≠ "AbortError") :
    ∃ err, (validateEmail c e (.netErr name msg cd)).outcome = .error err ∧
      err.name = name ∧ err.message = msg ∧ err.status = none ∧
      (cd = none → err.code = some "EUNKNOWN") ∧
      (∀ s, cd = some s → s ≠ "" → err.code = some s) := by
  refine ⟨catchClassify
    { name := name, message := msg, code := cd, status := none }, rfl, ?_⟩
  unfold catchClassify
  rw [if_neg hname]
  by_cases h : cd = none ∨ cd = some ""
  · rw [if_pos h]
    refine ⟨rfl, rfl, rfl, fun _ => rfl, ?_⟩
    intro s hs hne
    rcases h with h | h
    · rw [hs] at h; cases h
    · rw [hs] at h
      injection h with h'
      exact absurd h' hne
  · rw [if_neg h]
    refine ⟨rfl, rfl, rfl, ?_, ?_⟩
    · intro hcd; exact absurd (Or.inl hcd) h
    · intro s hs _; exact hs

/-- C5 witness: the mocked network error of the test suite — a thrown
`Error("Network error")` with no code — is rethrown with code
`EUNKNOWN` and its message preserved. -/
theorem transport_failure_classification_witness :
    ∃ err, (validateEmail (createValidator "key" none) "test@example.com"
        (.netErr "Error" "Network error" none)).outcome = .error err ∧
      err.name = "Error" ∧ err.message = "Network error" ∧
      err.status = none ∧
      ((none : Option String) = none → err.code = some "EUNKNOWN") ∧
      (∀ s, (none : Option String) = some s → s ≠ "" →
        err.code = some s) :=
  transport_failure_classification (createValidator "key" none)
    "test@example.com" "Error" "Network error" none (by decide)

/-- C3 counterexample: a 500 response whose body parses as JSON with an
empty `message` field is delivered with the generic message
"HTTP error! status: 500", not with the body's `message` field — the
falsy-field fallback `errorData.message || errorMessage` ignores the
parsed field. -/
theorem http_error_message_counterexample :
    (validateEmail (createValidator "key" none) "test@example.com"
      (.resp 500 (.ok [("message", .str "")]))).outcome =
    .error { name := "Error", message := "HTTP error! status: 500",
             code := some "EAPI", status := some 500 } ∧
    "HTTP error! status: 500" ≠ "" :=
  ⟨rfl, by decide⟩

/-- C3 (amended): every non-2xx response fails with the HTTP status
attached and code `EAUTH` for 401, `EAPI` otherwise; the message is the
body's `message` field when the body parses as JSON and that field is a
non-empty string, and the generic `HTTP error! status: <code>` when the
body does not parse or lacks a `message` field. -/
theorem http_error_classification (c : Client) (e : String) (status : Nat)
    (body : BodyParse) (hnok : responseOk status = false) :
    ∃ err, (validateEmail c e (.resp status body)).outcome = .error err ∧
      err.status = some status ∧
      err.code = some (if status = 401 then "EAUTH" else "EAPI") ∧
      (∀ raw n m, body = .fail raw n m →
        err.message = "HTTP error! status: " ++ toString status) ∧
      (∀ fields, body = .ok fields → getField fields "message" = none →
        err.message = "HTTP error! status: " ++ toString status) ∧
      (∀ fields s, body = .ok fields →
        getField fields "message" = some (.str s) → s ≠ "" →
        err.message = s) := by
  refine ⟨httpError status body, ?_, ?_, ?_, ?_, ?_, ?_⟩
  · have hname : (httpError status body).name = "Error" := rfl
    have hcode : (httpError status body).code =
        some (if status = 401 then "EAUTH" else "EAPI") := rfl
    have h1 : ¬((httpError status body).name = "AbortError") := by
      rw [hname]; decide
    have h2 : ¬((httpError status body).code = none ∨
        (httpError status body).code = some "") := by
      rw [hcode]
      by_cases h : status = 401 <;> simp [h]
    have hcc : catchClassify (httpError status body) =
        httpError status body := by
      unfold catchClassify
      rw [if_neg h1, if_neg h2]
    simp only [validateEmail, hnok, Bool.false_eq_true, if_false]
    rw [hcc]
  · rfl
  · rfl
  · intro raw n m hb; rw [hb]; rfl
  · intro fields hb hget
    rw [hb]
    unfold httpError
    simp [hget]
  · intro fields s hb hget hne
    rw [hb]
    unfold httpError
    simp [hget, jsTruthy, jsToString, hne]

/-- C3 witness: the simulated 500 response of the test suite, with body
`{message: "Internal server error"}`, fails with code `EAPI`, status
500 and the body's message. -/
theorem http_error_classification_witness :
    ∃ err, (validateEmail (createValidator "key" none) "test@example.com"
        (.resp 500 (.ok [("message", .str "Internal server error")]))).outcome
        = .error err ∧
      err.status = some 500 ∧
      err.code = some (if 500 = 401 then "EAUTH" else "EAPI") ∧
      (∀ raw n m, BodyParse.ok [("message", .str "Internal server error")] =
          .fail raw n m →
        err.message = "HTTP error! status: " ++ toString 500) ∧
      (∀ fields, BodyParse.ok [("message", .str "Internal server error")] =
          .ok fields → getField fields "message" = none →
        err.message = "HTTP error! status: " ++ toString 500) ∧
      (∀ fields s, BodyParse.ok [("message", .str "Internal server error")] =
          .ok fields → getField fields "message" = some (.str s) → s ≠ "" →
        err.message = s) :=
  http_error_classification (createValidator "key" none) "test@example.com"
    500 (.ok [("message", .str "Internal server error")]) (by decide)

/-- C6 counterexample: when the remote answers deliverable and the
supplied callback throws, the chain
`.then(r => callback(null, r)).catch(callback)` invokes the callback a
second time, now with the error the callback itself threw — two
invocations, not exactly one. -/
theorem callback_invoked_twice :
    validator (createValidator "key" none) "a@b.com"
      (.resp 200 (.ok [("result", .str "deliverable")]))
      (.func (.throws { name := "Error", message := "boom",
                        code := none, status := none })) =
    .cbRun
      [(none, some [("result", .str "deliverable"), ("is_valid", .bool true)]),
       (some { name := "Error", message := "boom",
               code := none, status := none }, none)]
      (some { name := "Error", message := "boom",
              code := none, status := none }) ∧
    (2 : Nat) ≠ 1 :=
  ⟨rfl, by decide⟩

/-- C6 (amended): a callback that returns normally is invoked exactly
once, with `(null, r)` on success and `(err)` on failure, and nothing
is left unhandled; a callback that throws is invoked a second time with
its own thrown error when the underlying operation succeeded, and its
throw becomes an unhandled rejection when the operation failed. -/
theorem callback_exactly_once_when_no_throw (c : Client) (e : String)
    (fb : FetchOutcome) :
    (∃ args, validator c e fb (.func .returns) = .cbRun [args] none) ∧
    (∀ ex r, (validateEmail c e fb).outcome = .ok r →
      validator c e fb (.func (.throws ex)) =
        .cbRun [(none, some r), (some ex, none)] (some ex)) ∧
    (∀ ex err, (validateEmail c e fb).outcome = .error err →
      validator c e fb (.func (.throws ex)) =
        .cbRun [(some err, none)] (some ex)) := by
  refine ⟨?_, ?_, ?_⟩
  · cases h : (validateEmail c e fb).outcome with
    | ok r => exact ⟨(none, some r), by simp [validator, runWithCallback, h]⟩
    | error err =>
        exact ⟨(some err, none), by simp [validator, runWithCallback, h]⟩
  · intro ex r h; simp [validator, runWithCallback, h]
  · intro ex err h; simp [validator, runWithCallback, h]

/-- C6 witness: on a timed-out operation even a throwing callback is
invoked exactly once, with the `ETIMEDOUT` error. -/
theorem callback_exactly_once_witness :
    validator (createValidator "key" none) "a@b.com" .timeout
      (.func (.throws { name := "Error", message := "boom",
                        code := none, status := none })) =
    .cbRun [(some { name := "Error", message := "Request timed out",
                    code := some "ETIMEDOUT", status := none }, none)]
      (some { name := "Error", message := "boom",
              code := none, status := none }) :=
  (callback_exactly_once_when_no_throw (createValidator "key" none)
      "a@b.com" .timeout).2.2
    { name := "Error", message := "boom", code := none, status := none }
    { name := "Error", message := "Request timed out",
      code := some "ETIMEDOUT", status := none } rfl

/-- C9 counterexample: a 200 response whose body does not parse is
rejected with the parse error, carrying code `EUNKNOWN` — but nothing
is logged and no field of the delivered error references the raw body:
its only text is the parse error's own message, in which the body does
not occur. -/
theorem unparsable_body_not_referenced :
    (validateEmail (createValidator "key" none) "test@example.com"
      (.resp 200 (.fail "garbled-response-body" "SyntaxError"
        "Unexpected token g in JSON at position 0"))).outcome =
    .error { name := "SyntaxError",
             message := "Unexpected token g in JSON at position 0",
             code := some "EUNKNOWN", status := none } ∧
    (validateEmail (createValidator "key" none) "test@example.com"
      (.resp 200 (.fail "garbled-response-body" "SyntaxError"
        "Unexpected token g in JSON at position 0"))).logs = [] ∧
    ¬ occursIn "garbled-response-body"
        "Unexpected token g in JSON at position 0" :=
  ⟨rfl, rfl, by decide⟩

/-- C9 (amended): every 2xx response with an unparsable body is rejected
with the parse error itself, given code `EUNKNOWN` (its name and message
preserved, no status attached), and nothing is written to the log. -/
theorem unparsable_body_classification (c : Client) (e : String)
    (status : Nat) (raw n m : String) (hok : responseOk status = true)
    (hn : n ≠ "AbortError") :
    (validateEmail c e (.resp status (.fail raw n m))).outcome =
      .error { name := n, message := m,
               code := some "EUNKNOWN", status := none } ∧
    (validateEmail c e (.resp status (.fail raw n m))).logs = [] := by
  constructor
  · simp [validateEmail, hok, catchClassify, hn]
  · simp [validateEmail, hok]

/-- C9 witness: a concrete unparsable 200 body is rejected with the
parse error under code `EUNKNOWN` and an empty log. -/
theorem unparsable_body_classification_witness :
    (validateEmail (createValidator "key" none) "test@example.com"
      (.resp 200 (.fail "not json" "SyntaxError"
        "Unexpected end of JSON input"))).outcome =
      .error { name := "SyntaxError",
               message := "Unexpected end of JSON input",
               code := some "EUNKNOWN", status := none } ∧
    (validateEmail (createValidator "key" none) "test@example.com"
      (.resp 200 (.fail "not json" "SyntaxError"
        "Unexpected end of JSON input"))).logs = [] :=
  unparsable_body_classification (createValidator "key" none)
    "test@example.com" 200 "not json" "SyntaxError"
    "Unexpected end of JSON input" (by decide) (by decide)

end MailgunValidate
